import Mathlib

/-!
Verification of the CHIP-8 emulator core in chip8.py.

The machine state and the two loop bodies (emulateCycle, decrement_DT_ST)
are embedded shallowly: the Python object fields become the fields of the
Machine structure, dict / bytearray / list accesses become function reads
with the same range checks Python performs (an out-of-range bytearray or
list access raises IndexError, a dict access with a key outside 0..15
raises KeyError; both are modelled as faults that end the CPU thread),
and the numpy display array becomes a Bool-valued function on row/column
indices.  Randomness (the single random.randint call of Cxkk) is passed in
as an explicit argument rr.  The interactive pdb drop-in of the unknown
opcode branch is modelled as an emitted unhandled-instruction report; the
branch then falls through to the common PC increment exactly as the
Python code does.
-/

/-- Function update: models assignment to one slot of a Python dict,
bytearray or list that is represented as a function. -/
def updf (f : Nat → Nat) (i v : Nat) : Nat → Nat :=
  fun j => if j = i then v else f j

/-- The display buffer: row / column indexed booleans (numpy array of
shape (32+16) × (64+16) in the source; only indices inside that shape are
ever read or written). -/
def Display : Type := Nat → Nat → Bool

/-- All-false display, as built in __init__ and by CLS. -/
def clearDisplay : Display := fun _ _ => false

/-- Faults that abort or interrupt the Python CPU thread. -/
inductive Fault where
  /-- The final else branch of emulateCycle: machine state is printed and
  pdb.set_trace() is entered; on operator continue the cycle resumes. -/
  | unhandled : Fault
  /-- An out-of-range bytearray or list access (IndexError): uncaught in
  the thread, so the CPU loop dies. -/
  | indexError : Fault
  /-- A dict access with a key outside 0..15 (KeyError). -/
  | keyError : Fault
deriving DecidableEq, Repr

/-- The whole mutable state of the Chip8 object that the two loop bodies
touch.  DT and ST are carried as integers so that the floor-at-zero
behaviour of the timer tick is a fact to prove, not a typing artifact;
SP is an integer because the Python code lets it go negative on RET. -/
structure Machine where
  mem : Nat → Nat
  V : Nat → Nat
  KEYS : Nat → Bool
  STACK : Nat → Nat
  DISPLAY : Display
  I : Nat
  SP : Int
  PC : Nat
  DT : Int
  ST : Int
  bBeepPlaying : Bool

/-- Result of one emulateCycle call: the state after the call (partial
mutations included when an exception fires mid-instruction) and the fault
raised, if any. -/
structure StepOut where
  state : Machine
  fault : Option Fault

/-- Python list read STACK[i] for the 16-entry stack: indices 0..15 read
directly, -16..-1 wrap from the end, anything else raises IndexError. -/
def stackGet (st : Nat → Nat) (i : Int) : Option Nat :=
  if 0 ≤ i ∧ i < 16 then some (st i.toNat)
  else if -16 ≤ i ∧ i < 0 then some (st (i + 16).toNat)
  else none

/-- Python list write STACK[i] = v with the same index rules. -/
def stackSet (st : Nat → Nat) (i : Int) (v : Nat) : Option (Nat → Nat) :=
  if 0 ≤ i ∧ i < 16 then some (updf st i.toNat v)
  else if -16 ≤ i ∧ i < 0 then some (updf st (i + 16).toNat v)
  else none

/-- Instruction fetch: w = (mem[PC] << 8) + mem[PC+1]. -/
def fetchWord (s : Machine) : Nat :=
  (s.mem s.PC <<< 8) + s.mem (s.PC + 1)

/-- Top nibble of the instruction word (class selector n3). -/
def nib3 (w : Nat) : Nat := (w &&& 0xF000) >>> 12

/-- Register index x, bits 8..11. -/
def nibX (w : Nat) : Nat := (w &&& 0x0F00) >>> 8

/-- Register index y, bits 4..7. -/
def nibY (w : Nat) : Nat := (w &&& 0x00F0) >>> 4

/-- Low nibble n. -/
def nibN (w : Nat) : Nat := w &&& 0x000F

/-- Low byte kk. -/
def lowByte (w : Nat) : Nat := w &&& 0x00FF

/-- Low 12 bits nnn. -/
def low12 (w : Nat) : Nat := w &&& 0x0FFF

/-- Bit j (0 = leftmost / most significant) of a sprite byte, as produced
by comparing the characters of "{:8b}".format(sprite_byte) with the
character 1 in the source (space padding never equals that character, so
this is exactly the MSB-first bit test). -/
def spriteBit (sb j : Nat) : Bool := (sb >>> (7 - j)) % 2 == 1

/-- The numpy slice XOR DISPLAY[row, c0:c0+8] ^= bits-of-sb. -/
def xorRow (d : Display) (row c0 sb : Nat) : Display :=
  fun r c =>
    if r = row ∧ c0 ≤ c ∧ c < c0 + 8 then d r c ^^ spriteBit sb (c - c0)
    else d r c

/-- The inner print_sprites helper of the DRW branch: successive sprite
bytes are XORed into rows (Vy mod 32) + index, columns (Vx mod 64) .. +7.
The index argument carries the enumerate counter. -/
def printSprites (d : Display) : List Nat → Nat → Nat → Nat → Display
  | [], _, _, _ => d
  | sb :: rest, Vx, Vy, idx =>
      printSprites (xorRow d (Vy % 32 + idx) (Vx % 64) sb) rest Vx Vy (idx + 1)

/-- Python slice mem[I : I+n] of the 4096-byte memory: in-range indices
only, silently clamped (never an error). -/
def memSlice (mem : Nat → Nat) (I n : Nat) : List Nat :=
  ((List.range n).filter (fun k => I + k < 4096)).map (fun k => mem (I + k))

/-- Collision scan of the DRW branch: some cell of the visible 32 × 64
region was set before the draw and is clear after it. -/
def anyErased (old new : Display) : Bool :=
  (List.range 32).any fun r => (List.range 64).any fun c => old r c && !(new r c)

/-- The full effect of the Dxyn branch on the display and the flag
register: main pass at (Vx mod 64, Vy mod 32), then the vertical wrap
pass (sprite bytes from index n - (32 - Vy mod 32) on, drawn at row 0),
then the horizontal wrap pass (all bytes shifted left by 64 - Vx mod 64
and masked to 8 bits, drawn at column 0), then the erased-pixel scan
against the pre-draw snapshot. -/
def drwEffect (mem : Nat → Nat) (I : Nat) (V : Nat → Nat) (disp : Display)
    (x y n : Nat) : Display × Nat :=
  let Vx := V x
  let Vy := V y
  let sbl := memSlice mem I n
  let d1 := printSprites disp sbl Vx Vy 0
  let d2 := if 32 - Vy % 32 < n then
              printSprites d1 (sbl.drop (n - (32 - Vy % 32))) Vx 0 0
            else d1
  let d3 := if 64 - Vx % 64 < 8 then
              printSprites d2 (sbl.map fun sb => (sb <<< (64 - Vx % 64)) &&& 0xFF) 0 Vy 0
            else d2
  (d3, if anyErased disp d3 then 1 else 0)

/-- The for k_ in self.KEYS loop of Fx0A: the dict iterates its keys in
insertion order 0..15, and the loop breaks at the first pressed key. -/
def firstPressed (keys : Nat → Bool) : Option Nat :=
  (List.range 16).find? keys

/-- The Fx65 loop: for loc in range(x+1): V[loc] = mem[I+loc], reading the
bytearray with a bounds check; on an out-of-range read the registers
written so far keep their new values and IndexError fires (second
component false). -/
def fx65Go (mem : Nat → Nat) (I : Nat) (V : Nat → Nat) (loc : Nat) :
    Nat → (Nat → Nat) × Bool
  | 0 => (V, true)
  | r + 1 =>
      if I + loc < 4096 then
        fx65Go mem I (updf V loc (mem (I + loc))) (loc + 1) r
      else (V, false)

/-- Common fall-through tail of emulateCycle: self.PC += 2. -/
def adv (s : Machine) : StepOut := ⟨{ s with PC := s.PC + 2 }, none⟩

/-- One call of Chip8.emulateCycle.  rr is the value returned by the
single random.randint(0, 0xFF) call of the Cxkk branch. -/
def step (rr : Nat) (s : Machine) : StepOut :=
  if s.PC + 1 < 4096 then
    if nib3 (fetchWord s) = 0x0 ∧ low12 (fetchWord s) = 0x0E0 then
      adv { s with DISPLAY := clearDisplay }
    else if nib3 (fetchWord s) = 0x0 ∧ low12 (fetchWord s) ≠ 0x0EE then
      adv s
    else if nib3 (fetchWord s) = 0x0 ∧ low12 (fetchWord s) = 0x0EE then
      match stackGet s.STACK s.SP with
      | none => ⟨s, some .indexError⟩
      | some v => adv { s with PC := v, SP := s.SP - 1 }
    else if nib3 (fetchWord s) = 0x1 then
      ⟨{ s with PC := low12 (fetchWord s) }, none⟩
    else if nib3 (fetchWord s) = 0x2 then
      match stackSet s.STACK (s.SP + 1) s.PC with
      | none => ⟨{ s with SP := s.SP + 1 }, some .indexError⟩
      | some st => ⟨{ s with SP := s.SP + 1, STACK := st, PC := low12 (fetchWord s) }, none⟩
    else if nib3 (fetchWord s) = 0x3 then
      adv (if s.V (nibX (fetchWord s)) = lowByte (fetchWord s) then { s with PC := s.PC + 2 } else s)
    else if nib3 (fetchWord s) = 0x4 then
      adv (if s.V (nibX (fetchWord s)) ≠ lowByte (fetchWord s) then { s with PC := s.PC + 2 } else s)
    else if nib3 (fetchWord s) = 0x6 then
      adv { s with V := updf s.V (nibX (fetchWord s)) (lowByte (fetchWord s)) }
    else if nib3 (fetchWord s) = 0x7 then
      adv { s with V := updf s.V (nibX (fetchWord s)) ((s.V (nibX (fetchWord s)) + lowByte (fetchWord s)) &&& 0xFF) }
    else if nib3 (fetchWord s) = 0x8 ∧ nibN (fetchWord s) = 0x0 then
      adv { s with V := updf s.V (nibX (fetchWord s)) (s.V (nibY (fetchWord s))) }
    else if nib3 (fetchWord s) = 0x8 ∧ nibN (fetchWord s) = 0x2 then
      adv { s with V := updf s.V (nibX (fetchWord s)) (s.V (nibX (fetchWord s)) &&& s.V (nibY (fetchWord s))) }
    else if nib3 (fetchWord s) = 0x8 ∧ nibN (fetchWord s) = 0x3 then
      adv { s with V := updf s.V (nibX (fetchWord s)) (s.V (nibX (fetchWord s)) ^^^ s.V (nibY (fetchWord s))) }
    else if nib3 (fetchWord s) = 0x8 ∧ nibN (fetchWord s) = 0x4 then
      let sum := s.V (nibX (fetchWord s)) + s.V (nibY (fetchWord s))
      let V1 := updf s.V 0xF (if sum > 0xFF then 1 else 0)
      adv { s with V := updf V1 (nibX (fetchWord s)) (sum &&& 0xFF) }
    else if nib3 (fetchWord s) = 0x8 ∧ nibN (fetchWord s) = 0x5 then
      -- VF is written first, then V[x] and V[y] are re-read for the
      -- subtraction; Python masks the possibly negative difference with
      -- & 0xFF, a two's-complement wrap.
      let V1 := updf s.V 0xF (if s.V (nibX (fetchWord s)) > s.V (nibY (fetchWord s)) then 1 else 0)
      let diff := ((((V1 (nibX (fetchWord s)) : Int) - V1 (nibY (fetchWord s)))) % 256).toNat
      adv { s with V := updf V1 (nibX (fetchWord s)) diff }
    else if nib3 (fetchWord s) = 0x8 ∧ nibN (fetchWord s) = 0x6 then
      let V1 := updf s.V 0xF (if s.V (nibX (fetchWord s)) &&& 0x1 = 1 then 1 else 0)
      adv { s with V := updf V1 (nibX (fetchWord s)) (V1 (nibX (fetchWord s)) >>> 1) }
    else if nib3 (fetchWord s) = 0xA then
      adv { s with I := low12 (fetchWord s) }
    else if nib3 (fetchWord s) = 0xC then
      adv { s with V := updf s.V (nibX (fetchWord s)) (rr &&& lowByte (fetchWord s)) }
    else if nib3 (fetchWord s) = 0xD then
      let p := drwEffect s.mem s.I s.V s.DISPLAY (nibX (fetchWord s)) (nibY (fetchWord s)) (nibN (fetchWord s))
      adv { s with DISPLAY := p.1, V := updf s.V 0xF p.2 }
    else if nib3 (fetchWord s) = 0xE ∧ lowByte (fetchWord s) = 0x9E then
      if s.V (nibX (fetchWord s)) < 16 then
        adv (if s.KEYS (s.V (nibX (fetchWord s))) then { s with PC := s.PC + 2 } else s)
      else ⟨s, some .keyError⟩
    else if nib3 (fetchWord s) = 0xE ∧ lowByte (fetchWord s) = 0xA1 then
      if s.V (nibX (fetchWord s)) < 16 then
        adv (if !(s.KEYS (s.V (nibX (fetchWord s)))) then { s with PC := s.PC + 2 } else s)
      else ⟨s, some .keyError⟩
    else if nib3 (fetchWord s) = 0xF ∧ lowByte (fetchWord s) = 0x07 then
      -- DT is nonnegative in every reachable state (the tick floors it at
      -- zero and Fx15 stores a register byte), so toNat is exact.
      adv { s with V := updf s.V (nibX (fetchWord s)) s.DT.toNat }
    else if nib3 (fetchWord s) = 0xF ∧ lowByte (fetchWord s) = 0x0A then
      match firstPressed s.KEYS with
      | none => ⟨s, none⟩
      | some k => adv { s with V := updf s.V (nibX (fetchWord s)) k }
    else if nib3 (fetchWord s) = 0xF ∧ lowByte (fetchWord s) = 0x15 then
      adv { s with DT := (s.V (nibX (fetchWord s)) : Int) }
    else if nib3 (fetchWord s) = 0xF ∧ lowByte (fetchWord s) = 0x18 then
      adv { s with ST := (s.V (nibX (fetchWord s)) : Int) }
    else if nib3 (fetchWord s) = 0xF ∧ lowByte (fetchWord s) = 0x1E then
      adv { s with I := s.I + s.V (nibX (fetchWord s)) }
    else if nib3 (fetchWord s) = 0xF ∧ lowByte (fetchWord s) = 0x33 then
      if s.I < 4096 then
        let m1 := updf s.mem s.I (s.V (nibX (fetchWord s)) / 100)
        if s.I + 1 < 4096 then
          let m2 := updf m1 (s.I + 1) (s.V (nibX (fetchWord s)) / 10)
          if s.I + 2 < 4096 then
            adv { s with mem := updf m2 (s.I + 2) (s.V (nibX (fetchWord s)) % 10) }
          else ⟨{ s with mem := m2 }, some .indexError⟩
        else ⟨{ s with mem := m1 }, some .indexError⟩
      else ⟨s, some .indexError⟩
    else if nib3 (fetchWord s) = 0xF ∧ lowByte (fetchWord s) = 0x65 then
      let p := fx65Go s.mem s.I s.V 0 (nibX (fetchWord s) + 1)
      if p.2 then adv { s with V := p.1 }
      else ⟨{ s with V := p.1 }, some .indexError⟩
    else
      -- prints PC, instruction word, registers, I, DT, stack, SP, then
      -- pdb.set_trace(); afterwards falls through to self.PC += 2.
      ⟨{ s with PC := s.PC + 2 }, some .unhandled⟩
  else ⟨s, some .indexError⟩

/-- One call of Chip8.decrement_DT_ST.  The two booleans report whether
beep.play (start) and beep.stop were invoked during this tick. -/
def decrement_DT_ST (s : Machine) : Machine × Bool × Bool :=
  if s.ST > 0 then
    ({ s with DT := if s.DT > 0 then s.DT - 1 else 0, ST := s.ST - 1, bBeepPlaying := true }, !s.bBeepPlaying, false)
  else
    ({ s with DT := if s.DT > 0 then s.DT - 1 else 0, ST := 0, bBeepPlaying := false }, false, s.bBeepPlaying)

/-- Iterated timer ticks, accumulating how many times the audio start and
stop primitives were invoked. -/
def tickRun (s : Machine) : Nat → Machine × Nat × Nat
  | 0 => (s, 0, 0)
  | m + 1 =>
      let t := decrement_DT_ST s
      let rest := tickRun t.1 m
      (rest.1, (if t.2.1 then 1 else 0) + rest.2.1,
               (if t.2.2 then 1 else 0) + rest.2.2)

/-- The machine as __init__ builds it from an empty ROM: zero memory and
registers, empty stack, clear display, PC at 0x200. -/
def initMachine : Machine :=
  { mem := fun _ => 0, V := fun _ => 0, KEYS := fun _ => false,
    STACK := fun _ => 0, DISPLAY := clearDisplay, I := 0, SP := 0,
    PC := 0x200, DT := 0, ST := 0, bBeepPlaying := false }

/-- The instruction words recognised by the decode chain of emulateCycle
(the guard of every branch before the final else). -/
def handledP (w : Nat) : Prop :=
  nib3 w = 0x0 ∨ nib3 w = 0x1 ∨ nib3 w = 0x2 ∨ nib3 w = 0x3 ∨ nib3 w = 0x4 ∨
  nib3 w = 0x6 ∨ nib3 w = 0x7 ∨
  (nib3 w = 0x8 ∧ (nibN w = 0x0 ∨ nibN w = 0x2 ∨ nibN w = 0x3 ∨ nibN w = 0x4 ∨
    nibN w = 0x5 ∨ nibN w = 0x6)) ∨
  nib3 w = 0xA ∨ nib3 w = 0xC ∨ nib3 w = 0xD ∨
  (nib3 w = 0xE ∧ (lowByte w = 0x9E ∨ lowByte w = 0xA1)) ∨
  (nib3 w = 0xF ∧ (lowByte w = 0x07 ∨ lowByte w = 0x0A ∨ lowByte w = 0x15 ∨
    lowByte w = 0x18 ∨ lowByte w = 0x1E ∨ lowByte w = 0x33 ∨ lowByte w = 0x65))

instance (w : Nat) : Decidable (handledP w) := by unfold handledP; infer_instance

/-- The CPU loop of runEmulationThread, one emulateCycle per iteration:
an uncaught IndexError or KeyError kills the thread (the loop stops), an
unknown-opcode report pauses in pdb and the loop then proceeds with the
incremented PC.  The faults observed along the way are collected. -/
def cpuRun (rr : Nat) : Nat → Machine → Machine × List Fault
  | 0, s => (s, [])
  | m + 1, s =>
      match step rr s with
      | ⟨s1, none⟩ => cpuRun rr m s1
      | ⟨s1, some .unhandled⟩ =>
          let r := cpuRun rr m s1
          (r.1, .unhandled :: r.2)
      | ⟨s1, some f⟩ => (s1, [f])

/-- Refinement definition for claim C6, following the claim as written:
the horizontal wrap pass uses the original sprite bytes bit-shifted left
by the OVERFLOW amount, the number of sprite columns that fall past the
visible right edge, (Vx mod 64 + 8) - 64.  Everything else reproduces the
source draw. -/
def drwSpecC6 (mem : Nat → Nat) (I : Nat) (V : Nat → Nat) (disp : Display)
    (x y n : Nat) : Display × Nat :=
  let Vx := V x
  let Vy := V y
  let sbl := memSlice mem I n
  let d1 := printSprites disp sbl Vx Vy 0
  let d2 := if 32 - Vy % 32 < n then
              printSprites d1 (sbl.drop (n - (32 - Vy % 32))) Vx 0 0
            else d1
  let d3 := if 64 - Vx % 64 < 8 then
              printSprites d2 (sbl.map fun sb => (sb <<< (Vx % 64 + 8 - 64)) &&& 0xFF) 0 Vy 0
            else d2
  (d3, if anyErased disp d3 then 1 else 0)

/-- Refinement definition for the amended claim C6: the horizontal wrap
pass shifts the original sprite bytes left by the DISTANCE from the draw
column to the visible right edge, 64 - Vx mod 64, so that each bit that
fell past the edge reappears at the matching column from 0 on. -/
def drwAmendedC6 (mem : Nat → Nat) (I : Nat) (V : Nat → Nat) (disp : Display)
    (x y n : Nat) : Display × Nat :=
  let Vx := V x
  let Vy := V y
  let sbl := memSlice mem I n
  let d1 := printSprites disp sbl Vx Vy 0
  let d2 := if 32 - Vy % 32 < n then
              printSprites d1 (sbl.drop (n - (32 - Vy % 32))) Vx 0 0
            else d1
  let d3 := if 64 - Vx % 64 < 8 then
              printSprites d2 (sbl.map fun sb => (sb <<< (64 - Vx % 64)) &&& 0xFF) 0 Vy 0
            else d2
  (d3, if anyErased disp d3 then 1 else 0)

/-! Concrete machines used by counterexamples and witnesses. -/

/-- RET (00EE) at PC 0x200 with one return address 0x300 pushed (SP = 1),
as the first CALL of a session leaves the stack. -/
def mC1 : Machine :=
  { initMachine with
      mem := updf (updf (fun _ => 0) 0x200 0x00) 0x201 0xEE,
      STACK := updf (fun _ => 0) 1 0x300, SP := 1 }

/-- The unimplemented opcode 8121 (OR Vx,Vy) at 0x200, followed by the
implemented 6005 (LD V0, 5) at 0x202. -/
def mC3 : Machine :=
  { initMachine with
      mem := updf (updf (updf (updf (fun _ => 0) 0x200 0x81) 0x201 0x21)
                        0x202 0x60) 0x203 0x05 }

/-- RET (00EE) at PC 0x200 with an empty stack (SP = 0). -/
def mC4 : Machine :=
  { initMachine with mem := updf (updf (fun _ => 0) 0x200 0x00) 0x201 0xEE }

/-- CALL 0x300 (2300) at PC 0x200 with the stack full (SP = 15). -/
def mC4call : Machine :=
  { initMachine with
      mem := updf (updf (fun _ => 0) 0x200 0x23) 0x201 0x00, SP := 15 }

/-- One-byte sprite 0x80 at memory 0, drawn by D011 semantics at
origin (0, 0); the display already has pixel (0, 0) set. -/
def memC5 : Nat → Nat := updf (fun _ => 0) 0 0x80
def dispC5 : Display := fun r c => r == 0 && c == 0

/-- Sprite bytes 80 40 20 at memory 0, with V1 = 31 (draw row origin at
the last visible row), for the vertical-wrap check. -/
def memC2 : Nat → Nat := updf (updf (updf (fun _ => 0) 0 0x80) 1 0x40) 2 0x20
def VC2 : Nat → Nat := updf (fun _ => 0) 1 31

/-- Sprite byte 01 at memory 0, with V0 = 57 (draw column origin 57), for
the horizontal-wrap shift check. -/
def memC6 : Nat → Nat := updf (fun _ => 0) 0 0x01
def VC6 : Nat → Nat := updf (fun _ => 0) 0 57

/-- Eight 0xFF sprite bytes at memory 0, with V0 = 60, the concrete
horizontal-wrap instance named by the claim. -/
def memC6w : Nat → Nat := fun a => if a < 8 then 0xFF else 0
def VC6w : Nat → Nat := updf (fun _ => 0) 0 60

/-- Fx0A (F10A) at 0x200 with no key pressed. -/
def mC7idle : Machine :=
  { initMachine with mem := updf (updf (fun _ => 0) 0x200 0xF1) 0x201 0x0A }

/-- Fx0A (F10A) at 0x200 with exactly key 7 pressed. -/
def mC7key : Machine :=
  { initMachine with
      mem := updf (updf (fun _ => 0) 0x200 0xF1) 0x201 0x0A,
      KEYS := fun j => j == 7 }

/-- Timer state with ST = 2, DT = 1, audio silent. -/
def mC8 : Machine := { initMachine with ST := 2, DT := 1 }

/-- Fx15 (F115) at 0x200 with V1 = 5 and DT = 0: a CPU cycle that writes
the delay timer. -/
def mC9 : Machine :=
  { initMachine with
      mem := updf (updf (fun _ => 0) 0x200 0xF1) 0x201 0x15,
      V := updf (fun _ => 0) 1 5 }

/-- Fx65 (F065) at 0x200 with I = 4096: the single memory read is out of
range. -/
def mC10 : Machine :=
  { initMachine with
      mem := updf (updf (fun _ => 0) 0x200 0xF0) 0x201 0x65, I := 4096 }

/-- Fx65 (F265) at 0x200 with I = 0x300 and bytes 11, 22, 33 there. -/
def mC10ok : Machine :=
  { initMachine with
      mem := updf (updf (updf (updf (updf (fun _ => 0) 0x200 0xF2) 0x201 0x65)
                              0x300 0x11) 0x301 0x22) 0x302 0x33,
      I := 0x300 }

/-! Helper lemmas. -/

theorem find?_range_none {p : Nat → Bool} :
    ∀ {n : Nat}, (∀ j, j < n → p j = false) → (List.range n).find? p = none := by
  intro n
  induction n with
  | zero => intro _; rfl
  | succ m ih =>
      intro h
      rw [List.range_succ, List.find?_append, ih (fun j hj => h j (by omega))]
      simp [List.find?, h m (by omega)]

theorem find?_range_some {p : Nat → Bool} {k : Nat} :
    ∀ {n : Nat}, k < n → p k = true → (∀ j, j < k → p j = false) →
      (List.range n).find? p = some k := by
  intro n
  induction n with
  | zero => omega
  | succ m ih =>
      intro hk hp hmin
      rw [List.range_succ, List.find?_append]
      by_cases hkm : k < m
      · rw [ih hkm hp hmin]; rfl
      · have hkm' : k = m := by omega
        subst hkm'
        rw [find?_range_none hmin]
        simp [List.find?, hp]

theorem fx65Go_in_range {mem : Nat → Nat} {I : Nat} :
    ∀ (r : Nat) (V : Nat → Nat) (loc : Nat), (∀ j, j < r → I + (loc + j) < 4096) →
      (fx65Go mem I V loc r).2 = true ∧
      (∀ k, (fx65Go mem I V loc r).1 k =
        if loc ≤ k ∧ k < loc + r then mem (I + k) else V k) := by
  intro r
  induction r with
  | zero =>
      intro V loc _
      refine ⟨rfl, fun k => ?_⟩
      simp only [fx65Go]
      rw [if_neg (by omega)]
  | succ m ih =>
      intro V loc h
      have h0 : I + loc < 4096 := by have := h 0 (by omega); omega
      simp only [fx65Go, if_pos h0]
      obtain ⟨hok, hval⟩ := ih (updf V loc (mem (I + loc))) (loc + 1)
        (fun j hj => by have := h (j + 1) (by omega); omega)
      refine ⟨hok, fun k => ?_⟩
      rw [hval k]
      by_cases hk : loc + 1 ≤ k ∧ k < loc + 1 + m
      · rw [if_pos hk, if_pos (by omega)]
      · rw [if_neg hk]
        unfold updf
        by_cases hkl : k = loc
        · subst hkl; rw [if_pos rfl, if_pos (by omega)]
        · rw [if_neg hkl, if_neg (by omega)]

/-! Claim C1: the RET instruction. -/

/-- Claim C1, amended: executing one cycle on 00EE (RET) pops the stack
and decrements SP by 1, but the RET branch of emulateCycle falls through
to the common PC increment, so PC ends at the popped address PLUS 2 (this
pairs with CALL, which pushes the address of the CALL instruction itself,
so control resumes just after the CALL). -/
theorem c1_ret_pops_then_advances (rr : Nat) (s : Machine) (v : Nat)
    (hpc : s.PC + 1 < 4096)
    (h3 : nib3 (fetchWord s) = 0x0)
    (hn : low12 (fetchWord s) = 0x0EE)
    (hget : stackGet s.STACK s.SP = some v) :
    step rr s = ⟨{ s with SP := s.SP - 1, PC := v + 2 }, none⟩ := by
  simp only [step, if_pos hpc, h3, hn]
  norm_num [hget, adv]

/-- Claim C1 witness: a concrete RET with 0x300 on top of the stack. -/
theorem c1_witness :
    (mC1.PC + 1 < 4096 ∧ nib3 (fetchWord mC1) = 0x0 ∧
     low12 (fetchWord mC1) = 0x0EE ∧ stackGet mC1.STACK mC1.SP = some 0x300) ∧
    step 0 mC1 = ⟨{ mC1 with SP := mC1.SP - 1, PC := 0x300 + 2 }, none⟩ :=
  ⟨⟨by decide, by decide, by decide, by decide⟩,
   c1_ret_pops_then_advances 0 mC1 0x300 (by decide) (by decide) (by decide) (by decide)⟩

/-- Claim C1 counterexample: on the concrete machine mC1 the popped
address is 0x300, yet the cycle ends with PC = 0x302, not 0x300 — the
claim's final PC value is wrong. -/
theorem c1_counterexample :
    stackGet mC1.STACK mC1.SP = some 0x300 ∧
    (step 0 mC1).state.PC = 0x302 ∧ ¬ (step 0 mC1).state.PC = 0x300 := by
  refine ⟨by decide, by decide, by decide⟩

/-! Claim C4: stack overflow and underflow. -/

/-- Claim C4, amended: the actual behaviour of the two stack faults.  A
CALL with SP = 15 (the sixteenth push: CALL stores return addresses at
indices 1..15, so at most 15 fit) increments SP to 16 and then raises
IndexError on the out-of-range stack write - loud, but with SP already
corrupted, and the seventeenth CALL of the claim is unreachable.  A RET
with SP = 0 (empty stack) is NOT reported at all: it silently loads
STACK[0], a slot no CALL ever wrote, leaves PC = STACK[0] + 2 and drops
SP to -1, from which further stack accesses wrap via Python negative
indexing. -/
theorem c4_stack_faults (rr : Nat) (s1 s2 : Machine)
    (hpc1 : s1.PC + 1 < 4096)
    (hcall : nib3 (fetchWord s1) = 0x2)
    (hsp1 : s1.SP = 15)
    (hpc2 : s2.PC + 1 < 4096)
    (h3 : nib3 (fetchWord s2) = 0x0)
    (hn : low12 (fetchWord s2) = 0x0EE)
    (hsp2 : s2.SP = 0) :
    step rr s1 = ⟨{ s1 with SP := 16 }, some .indexError⟩ ∧
    step rr s2 = ⟨{ s2 with SP := -1, PC := s2.STACK 0 + 2 }, none⟩ := by
  constructor
  · have hset : stackSet s1.STACK 16 s1.PC = none := by simp [stackSet]
    simp only [step, if_pos hpc1, hcall]
    norm_num [hsp1, hset]
  · have hget : stackGet s2.STACK 0 = some (s2.STACK 0) := by simp [stackGet]
    simp only [step, if_pos hpc2, h3, hn]
    norm_num [hsp2, hget, adv]

/-- Claim C4 witness: the concrete sixteenth CALL and empty-stack RET. -/
theorem c4_witness :
    (mC4call.PC + 1 < 4096 ∧ nib3 (fetchWord mC4call) = 0x2 ∧ mC4call.SP = 15 ∧
     mC4.PC + 1 < 4096 ∧ nib3 (fetchWord mC4) = 0x0 ∧
     low12 (fetchWord mC4) = 0x0EE ∧ mC4.SP = 0) ∧
    (step 0 mC4call = ⟨{ mC4call with SP := 16 }, some .indexError⟩ ∧
     step 0 mC4 = ⟨{ mC4 with SP := -1, PC := mC4.STACK 0 + 2 }, none⟩) :=
  ⟨⟨by decide, by decide, by decide, by decide, by decide, by decide, by decide⟩,
   c4_stack_faults 0 mC4call mC4 (by decide) (by decide) (by decide)
     (by decide) (by decide) (by decide) (by decide)⟩

/-- Claim C4 counterexample: RET on the empty stack of mC4 raises no
fault at all and wraps SP to -1 — the silent corruption the claim denies. -/
theorem c4_counterexample :
    (step 0 mC4).fault = none ∧ (step 0 mC4).state.SP = -1 ∧
    (step 0 mC4).state.PC = 2 := by
  refine ⟨by decide, by decide, by decide⟩

/-! Claim C10: the Fx65 bulk register load. -/

/-- Claim C10, amended: Fx65 copies mem[I+loc] into V[loc] for each loc
in 0..x, leaves I itself unchanged (no post-increment) and leaves every
register above Vx unchanged — PROVIDED all the reads are in range
(I + x < 4096).  For larger I the bytearray read raises IndexError and
the cycle dies instead of copying. -/
theorem c10_fx65_loads_registers (rr : Nat) (s : Machine)
    (hpc : s.PC + 1 < 4096)
    (h3 : nib3 (fetchWord s) = 0xF)
    (hkk : lowByte (fetchWord s) = 0x65)
    (hI : s.I + nibX (fetchWord s) < 4096) :
    (step rr s).fault = none ∧
    (step rr s).state.I = s.I ∧
    (step rr s).state.PC = s.PC + 2 ∧
    (∀ j, j ≤ nibX (fetchWord s) → (step rr s).state.V j = s.mem (s.I + j)) ∧
    (∀ j, nibX (fetchWord s) < j → (step rr s).state.V j = s.V j) := by
  obtain ⟨hok, hval⟩ := @fx65Go_in_range s.mem s.I
    (nibX (fetchWord s) + 1) s.V 0 (fun j hj => by omega)
  simp only [step, if_pos hpc, h3, hkk]
  norm_num [hok, adv]
  refine ⟨fun j hj => ?_, fun j hj => ?_⟩
  · rw [hval j, if_pos (by omega)]
  · rw [hval j, if_neg (by omega)]

/-- Claim C10 witness: F265 with I = 0x300 and bytes 11 22 33 there. -/
theorem c10_witness :
    (mC10ok.PC + 1 < 4096 ∧ nib3 (fetchWord mC10ok) = 0xF ∧
     lowByte (fetchWord mC10ok) = 0x65 ∧
     mC10ok.I + nibX (fetchWord mC10ok) < 4096) ∧
    ((step 0 mC10ok).fault = none ∧
     (step 0 mC10ok).state.I = mC10ok.I ∧
     (step 0 mC10ok).state.PC = mC10ok.PC + 2 ∧
     (∀ j, j ≤ nibX (fetchWord mC10ok) →
        (step 0 mC10ok).state.V j = mC10ok.mem (mC10ok.I + j)) ∧
     (∀ j, nibX (fetchWord mC10ok) < j → (step 0 mC10ok).state.V j = mC10ok.V j)) :=
  ⟨⟨by decide, by decide, by decide, by decide⟩,
   c10_fx65_loads_registers 0 mC10ok (by decide) (by decide) (by decide) (by decide)⟩

/-- Claim C10 counterexample: with I = 4096 (reachable through Fx1E,
which never masks I) the very first read of F065 is out of range: the
cycle faults with IndexError, copies nothing and never advances PC — so
the claim does not hold for EVERY value of I. -/
theorem c10_counterexample :
    mC10.I = 4096 ∧ (step 0 mC10).fault = some .indexError ∧
    (step 0 mC10).state.V 0 = 0 ∧ (step 0 mC10).state.PC = 0x200 := by
  refine ⟨by decide, by decide, by decide, by decide⟩

/-! Claim C9: single writer per field. -/

set_option maxHeartbeats 2000000

/-- Claim C9, amended: the timer tick writes nothing but DT, ST and the
beep flag (memory, registers, I, PC, stack, SP, display and key states
are untouched), and a CPU cycle leaves DT and ST unchanged for every
instruction EXCEPT the two timer loads the instruction table itself
defines, Fx15 (DT gets Vx) and Fx18 (ST gets Vx) — so the timer loop is
not the sole writer of DT/ST as claimed. -/
theorem c9_single_writer_amended (rr : Nat) (s : Machine)
    (h15 : ¬ (nib3 (fetchWord s) = 0xF ∧ lowByte (fetchWord s) = 0x15))
    (h18 : ¬ (nib3 (fetchWord s) = 0xF ∧ lowByte (fetchWord s) = 0x18)) :
    ((step rr s).state.DT = s.DT ∧ (step rr s).state.ST = s.ST) ∧
    ((decrement_DT_ST s).1.mem = s.mem ∧ (decrement_DT_ST s).1.V = s.V ∧
     (decrement_DT_ST s).1.KEYS = s.KEYS ∧ (decrement_DT_ST s).1.STACK = s.STACK ∧
     (decrement_DT_ST s).1.DISPLAY = s.DISPLAY ∧ (decrement_DT_ST s).1.I = s.I ∧
     (decrement_DT_ST s).1.SP = s.SP ∧ (decrement_DT_ST s).1.PC = s.PC) := by
  refine ⟨?_, by simp only [decrement_DT_ST]; split <;> exact ⟨rfl, rfl, rfl, rfl, rfl, rfl, rfl, rfl⟩⟩
  by_cases hpc : s.PC + 1 < 4096
  case neg => simp [step, hpc]
  by_cases h0 : nib3 (fetchWord s) = 0x0
  · by_cases e0 : low12 (fetchWord s) = 0x0E0
    · simp only [step, if_pos hpc, h0, e0]; norm_num [adv]
    by_cases eE : low12 (fetchWord s) = 0x0EE
    · simp only [step, if_pos hpc, h0, eE]
      norm_num [e0, adv]
      repeat' split
      all_goals norm_num [adv]
    · simp only [step, if_pos hpc, h0]
      norm_num [e0, eE, adv]
  by_cases h1 : nib3 (fetchWord s) = 0x1
  · simp only [step, if_pos hpc, h1]; norm_num [adv]
  by_cases h2 : nib3 (fetchWord s) = 0x2
  · simp only [step, if_pos hpc, h2]
    norm_num [adv]
    repeat' split
    all_goals norm_num [adv]
  by_cases h3 : nib3 (fetchWord s) = 0x3
  · simp only [step, if_pos hpc, h3]
    norm_num [adv]
    repeat' split
    all_goals norm_num [adv]
  by_cases h4 : nib3 (fetchWord s) = 0x4
  · simp only [step, if_pos hpc, h4]
    norm_num [adv]
    repeat' split
    all_goals norm_num [adv]
  by_cases h6 : nib3 (fetchWord s) = 0x6
  · simp only [step, if_pos hpc, h6]; norm_num [adv]
  by_cases h7 : nib3 (fetchWord s) = 0x7
  · simp only [step, if_pos hpc, h7]; norm_num [adv]
  by_cases h8 : nib3 (fetchWord s) = 0x8
  · by_cases n0 : nibN (fetchWord s) = 0x0
    · simp only [step, if_pos hpc, h8, n0]; norm_num [adv]
    by_cases n2 : nibN (fetchWord s) = 0x2
    · simp only [step, if_pos hpc, h8, n2]; norm_num [adv]
    by_cases n3 : nibN (fetchWord s) = 0x3
    · simp only [step, if_pos hpc, h8, n3]; norm_num [adv]
    by_cases n4 : nibN (fetchWord s) = 0x4
    · simp only [step, if_pos hpc, h8, n4]; norm_num [adv]
    by_cases n5 : nibN (fetchWord s) = 0x5
    · simp only [step, if_pos hpc, h8, n5]; norm_num [adv]
    by_cases n6 : nibN (fetchWord s) = 0x6
    · simp only [step, if_pos hpc, h8, n6]; norm_num [adv]
    · simp only [step, if_pos hpc, h8]
      norm_num [n0, n2, n3, n4, n5, n6, adv]
  by_cases hA : nib3 (fetchWord s) = 0xA
  · simp only [step, if_pos hpc, hA]; norm_num [adv]
  by_cases hC : nib3 (fetchWord s) = 0xC
  · simp only [step, if_pos hpc, hC]; norm_num [adv]
  by_cases hD : nib3 (fetchWord s) = 0xD
  · simp only [step, if_pos hpc, hD]; norm_num [adv]
  by_cases hE : nib3 (fetchWord s) = 0xE
  · by_cases k9E : lowByte (fetchWord s) = 0x9E
    · simp only [step, if_pos hpc, hE, k9E]
      norm_num [adv]
      repeat' split
      all_goals norm_num [adv]
    by_cases kA1 : lowByte (fetchWord s) = 0xA1
    · simp only [step, if_pos hpc, hE, kA1]
      norm_num [adv]
      repeat' split
      all_goals norm_num [adv]
    · simp only [step, if_pos hpc, hE]
      norm_num [k9E, kA1, adv]
  by_cases hF : nib3 (fetchWord s) = 0xF
  · by_cases k07 : lowByte (fetchWord s) = 0x07
    · simp only [step, if_pos hpc, hF, k07]; norm_num [adv]
    by_cases k0A : lowByte (fetchWord s) = 0x0A
    · simp only [step, if_pos hpc, hF, k0A]
      norm_num [adv]
      repeat' split
      all_goals norm_num [adv]
    by_cases k15 : lowByte (fetchWord s) = 0x15
    · exact absurd ⟨hF, k15⟩ h15
    by_cases k18 : lowByte (fetchWord s) = 0x18
    · exact absurd ⟨hF, k18⟩ h18
    by_cases k1E : lowByte (fetchWord s) = 0x1E
    · simp only [step, if_pos hpc, hF, k1E]; norm_num [adv]
    by_cases k33 : lowByte (fetchWord s) = 0x33
    · simp only [step, if_pos hpc, hF, k33]
      norm_num [adv]
      repeat' split
      all_goals norm_num [adv]
    by_cases k65 : lowByte (fetchWord s) = 0x65
    · simp only [step, if_pos hpc, hF, k65]
      norm_num [adv]
      repeat' split
      all_goals norm_num [adv]
    · simp only [step, if_pos hpc, hF]
      norm_num [k07, k0A, k15, k18, k1E, k33, k65, adv]
  · simp only [step, if_pos hpc]
    norm_num [h0, h1, h2, h3, h4, h6, h7, h8, hA, hC, hD, hE, hF, adv]

/-- Claim C9 witness: a machine whose next instruction is 0000 (neither
Fx15 nor Fx18). -/
theorem c9_witness :
    (¬ (nib3 (fetchWord initMachine) = 0xF ∧ lowByte (fetchWord initMachine) = 0x15) ∧
     ¬ (nib3 (fetchWord initMachine) = 0xF ∧ lowByte (fetchWord initMachine) = 0x18)) ∧
    (((step 0 initMachine).state.DT = initMachine.DT ∧
      (step 0 initMachine).state.ST = initMachine.ST) ∧
     ((decrement_DT_ST initMachine).1.mem = initMachine.mem ∧
      (decrement_DT_ST initMachine).1.V = initMachine.V ∧
      (decrement_DT_ST initMachine).1.KEYS = initMachine.KEYS ∧
      (decrement_DT_ST initMachine).1.STACK = initMachine.STACK ∧
      (decrement_DT_ST initMachine).1.DISPLAY = initMachine.DISPLAY ∧
      (decrement_DT_ST initMachine).1.I = initMachine.I ∧
      (decrement_DT_ST initMachine).1.SP = initMachine.SP ∧
      (decrement_DT_ST initMachine).1.PC = initMachine.PC)) :=
  ⟨⟨by decide, by decide⟩,
   c9_single_writer_amended 0 initMachine (by decide) (by decide)⟩

/-- Claim C9 counterexample: the CPU cycle on F115 (LD DT, V1) with
V1 = 5 changes DT from 0 to 5 — the CPU loop does write DT. -/
theorem c9_counterexample :
    mC9.DT = 0 ∧ (step 0 mC9).state.DT = 5 := by
  refine ⟨by decide, by decide⟩

/-! Claim C3: unhandled opcodes. -/

/-- Claim C3, amended: on any instruction word the decode chain does not
recognise (handledP is the exact coverage of the chain; 8xy1, 5xy0 and
Fx29 all fall outside it), the cycle reports the fault — the Python
branch prints PC, the instruction word, all registers, I, DT, the stack
and SP, then stops in pdb — but it is NOT fatal: the branch falls through
to the common increment, so the post-state has PC advanced by 2, and the
CPU loop goes on executing subsequent instructions from there. -/
theorem c3_unhandled_reports_and_resumes (rr : Nat) (s : Machine)
    (hpc : s.PC + 1 < 4096)
    (hun : ¬ handledP (fetchWord s)) :
    step rr s = ⟨{ s with PC := s.PC + 2 }, some .unhandled⟩ ∧
    (∀ m, cpuRun rr (m + 1) s =
      ((cpuRun rr m { s with PC := s.PC + 2 }).1,
       .unhandled :: (cpuRun rr m { s with PC := s.PC + 2 }).2)) := by
  unfold handledP at hun
  have h0 : ¬ nib3 (fetchWord s) = 0x0 := fun h => hun (Or.inl h)
  have h1 : ¬ nib3 (fetchWord s) = 0x1 := fun h => hun (Or.inr (Or.inl h))
  have h2 : ¬ nib3 (fetchWord s) = 0x2 := fun h => hun (Or.inr (Or.inr (Or.inl h)))
  have h3 : ¬ nib3 (fetchWord s) = 0x3 := fun h => hun (Or.inr (Or.inr (Or.inr (Or.inl h))))
  have h4 : ¬ nib3 (fetchWord s) = 0x4 := fun h => hun (Or.inr (Or.inr (Or.inr (Or.inr (Or.inl h)))))
  have h6 : ¬ nib3 (fetchWord s) = 0x6 := fun h => hun (Or.inr (Or.inr (Or.inr (Or.inr (Or.inr (Or.inl h))))))
  have h7 : ¬ nib3 (fetchWord s) = 0x7 := fun h => hun (Or.inr (Or.inr (Or.inr (Or.inr (Or.inr (Or.inr (Or.inl h)))))))
  have hA : ¬ nib3 (fetchWord s) = 0xA := fun h => hun (Or.inr (Or.inr (Or.inr (Or.inr (Or.inr (Or.inr (Or.inr (Or.inr (Or.inl h)))))))))
  have hC : ¬ nib3 (fetchWord s) = 0xC := fun h => hun (Or.inr (Or.inr (Or.inr (Or.inr (Or.inr (Or.inr (Or.inr (Or.inr (Or.inr (Or.inl h))))))))))
  have hD : ¬ nib3 (fetchWord s) = 0xD := fun h => hun (Or.inr (Or.inr (Or.inr (Or.inr (Or.inr (Or.inr (Or.inr (Or.inr (Or.inr (Or.inr (Or.inl h)))))))))))
  have g80 : ¬ (nib3 (fetchWord s) = 0x8 ∧ nibN (fetchWord s) = 0x0) := fun h => hun (Or.inr (Or.inr (Or.inr (Or.inr (Or.inr (Or.inr (Or.inr (Or.inl ⟨h.1, Or.inl h.2⟩))))))))
  have g82 : ¬ (nib3 (fetchWord s) = 0x8 ∧ nibN (fetchWord s) = 0x2) := fun h => hun (Or.inr (Or.inr (Or.inr (Or.inr (Or.inr (Or.inr (Or.inr (Or.inl ⟨h.1, Or.inr (Or.inl h.2)⟩))))))))
  have g83 : ¬ (nib3 (fetchWord s) = 0x8 ∧ nibN (fetchWord s) = 0x3) := fun h => hun (Or.inr (Or.inr (Or.inr (Or.inr (Or.inr (Or.inr (Or.inr (Or.inl ⟨h.1, Or.inr (Or.inr (Or.inl h.2))⟩))))))))
  have g84 : ¬ (nib3 (fetchWord s) = 0x8 ∧ nibN (fetchWord s) = 0x4) := fun h => hun (Or.inr (Or.inr (Or.inr (Or.inr (Or.inr (Or.inr (Or.inr (Or.inl ⟨h.1, Or.inr (Or.inr (Or.inr (Or.inl h.2)))⟩))))))))
  have g85 : ¬ (nib3 (fetchWord s) = 0x8 ∧ nibN (fetchWord s) = 0x5) := fun h => hun (Or.inr (Or.inr (Or.inr (Or.inr (Or.inr (Or.inr (Or.inr (Or.inl ⟨h.1, Or.inr (Or.inr (Or.inr (Or.inr (Or.inl h.2))))⟩))))))))
  have g86 : ¬ (nib3 (fetchWord s) = 0x8 ∧ nibN (fetchWord s) = 0x6) := fun h => hun (Or.inr (Or.inr (Or.inr (Or.inr (Or.inr (Or.inr (Or.inr (Or.inl ⟨h.1, Or.inr (Or.inr (Or.inr (Or.inr (Or.inr (h.2)))))⟩))))))))
  have gE9 : ¬ (nib3 (fetchWord s) = 0xE ∧ lowByte (fetchWord s) = 0x9E) := fun h => hun (Or.inr (Or.inr (Or.inr (Or.inr (Or.inr (Or.inr (Or.inr (Or.inr (Or.inr (Or.inr (Or.inr (Or.inl ⟨h.1, Or.inl h.2⟩))))))))))))
  have gEA : ¬ (nib3 (fetchWord s) = 0xE ∧ lowByte (fetchWord s) = 0xA1) := fun h => hun (Or.inr (Or.inr (Or.inr (Or.inr (Or.inr (Or.inr (Or.inr (Or.inr (Or.inr (Or.inr (Or.inr (Or.inl ⟨h.1, Or.inr h.2⟩))))))))))))
  have gF07 : ¬ (nib3 (fetchWord s) = 0xF ∧ lowByte (fetchWord s) = 0x07) := fun h => hun (Or.inr (Or.inr (Or.inr (Or.inr (Or.inr (Or.inr (Or.inr (Or.inr (Or.inr (Or.inr (Or.inr (Or.inr (⟨h.1, Or.inl h.2⟩)))))))))))))
  have gF0A : ¬ (nib3 (fetchWord s) = 0xF ∧ lowByte (fetchWord s) = 0x0A) := fun h => hun (Or.inr (Or.inr (Or.inr (Or.inr (Or.inr (Or.inr (Or.inr (Or.inr (Or.inr (Or.inr (Or.inr (Or.inr (⟨h.1, Or.inr (Or.inl h.2)⟩)))))))))))))
  have gF15 : ¬ (nib3 (fetchWord s) = 0xF ∧ lowByte (fetchWord s) = 0x15) := fun h => hun (Or.inr (Or.inr (Or.inr (Or.inr (Or.inr (Or.inr (Or.inr (Or.inr (Or.inr (Or.inr (Or.inr (Or.inr (⟨h.1, Or.inr (Or.inr (Or.inl h.2))⟩)))))))))))))
  have gF18 : ¬ (nib3 (fetchWord s) = 0xF ∧ lowByte (fetchWord s) = 0x18) := fun h => hun (Or.inr (Or.inr (Or.inr (Or.inr (Or.inr (Or.inr (Or.inr (Or.inr (Or.inr (Or.inr (Or.inr (Or.inr (⟨h.1, Or.inr (Or.inr (Or.inr (Or.inl h.2)))⟩)))))))))))))
  have gF1E : ¬ (nib3 (fetchWord s) = 0xF ∧ lowByte (fetchWord s) = 0x1E) := fun h => hun (Or.inr (Or.inr (Or.inr (Or.inr (Or.inr (Or.inr (Or.inr (Or.inr (Or.inr (Or.inr (Or.inr (Or.inr (⟨h.1, Or.inr (Or.inr (Or.inr (Or.inr (Or.inl h.2))))⟩)))))))))))))
  have gF33 : ¬ (nib3 (fetchWord s) = 0xF ∧ lowByte (fetchWord s) = 0x33) := fun h => hun (Or.inr (Or.inr (Or.inr (Or.inr (Or.inr (Or.inr (Or.inr (Or.inr (Or.inr (Or.inr (Or.inr (Or.inr (⟨h.1, Or.inr (Or.inr (Or.inr (Or.inr (Or.inr (Or.inl h.2)))))⟩)))))))))))))
  have gF65 : ¬ (nib3 (fetchWord s) = 0xF ∧ lowByte (fetchWord s) = 0x65) := fun h => hun (Or.inr (Or.inr (Or.inr (Or.inr (Or.inr (Or.inr (Or.inr (Or.inr (Or.inr (Or.inr (Or.inr (Or.inr (⟨h.1, Or.inr (Or.inr (Or.inr (Or.inr (Or.inr (Or.inr (h.2))))))⟩)))))))))))))
  have hstep : step rr s = ⟨{ s with PC := s.PC + 2 }, some .unhandled⟩ := by
    unfold step
    rw [if_pos hpc,
      if_neg (fun h => h0 h.1), if_neg (fun h => h0 h.1), if_neg (fun h => h0 h.1),
      if_neg h1, if_neg h2, if_neg h3, if_neg h4, if_neg h6, if_neg h7,
      if_neg g80, if_neg g82, if_neg g83, if_neg g84, if_neg g85, if_neg g86,
      if_neg hA, if_neg hC, if_neg hD, if_neg gE9, if_neg gEA,
      if_neg gF07, if_neg gF0A, if_neg gF15, if_neg gF18, if_neg gF1E,
      if_neg gF33, if_neg gF65]
  refine ⟨hstep, fun m => ?_⟩
  simp only [cpuRun, hstep]

/-- Claim C3 witness: 8121 at 0x200 is unhandled; the loop resumes. -/
theorem c3_witness :
    (mC3.PC + 1 < 4096 ∧ ¬ handledP (fetchWord mC3)) ∧
    (step 0 mC3 = ⟨{ mC3 with PC := mC3.PC + 2 }, some .unhandled⟩ ∧
     (∀ m, cpuRun 0 (m + 1) mC3 =
       ((cpuRun 0 m { mC3 with PC := mC3.PC + 2 }).1,
        .unhandled :: (cpuRun 0 m { mC3 with PC := mC3.PC + 2 }).2))) :=
  ⟨⟨by decide, by decide⟩,
   c3_unhandled_reports_and_resumes 0 mC3 (by decide) (by decide)⟩

/-- Claim C3 counterexample: on the unrecognised opcode 8121 the cycle
reports the fault but ends with PC advanced from 0x200 to 0x202, and two
loop iterations later the NEXT instruction (6005) has executed, setting
V0 = 5 — execution is resumed, not terminated. -/
theorem c3_counterexample :
    (step 0 mC3).fault = some .unhandled ∧
    (step 0 mC3).state.PC = 0x202 ∧
    (cpuRun 0 2 mC3).1.V 0 = 5 := by
  refine ⟨by decide, by decide, by decide⟩

/-! Claim C7: the Fx0A blocking key wait. -/

/-- Claim C7, confirmed: on Fx0A with no key pressed the cycle returns
before touching anything — the machine state (PC included) is exactly
unchanged, so the same instruction is refetched next cycle; with exactly
one key k pressed, the key scan (which walks the key dict in order
0..15) finds k, Vx is set to k and PC advances by 2, once. -/
theorem c7_fx0a_wait_and_advance (rr : Nat) (s1 s2 : Machine) (k : Nat)
    (hpc1 : s1.PC + 1 < 4096)
    (hF1 : nib3 (fetchWord s1) = 0xF)
    (hkk1 : lowByte (fetchWord s1) = 0x0A)
    (hnone : ∀ j, j < 16 → s1.KEYS j = false)
    (hpc2 : s2.PC + 1 < 4096)
    (hF2 : nib3 (fetchWord s2) = 0xF)
    (hkk2 : lowByte (fetchWord s2) = 0x0A)
    (hk16 : k < 16)
    (hk : s2.KEYS k = true)
    (huniq : ∀ j, j < 16 → j ≠ k → s2.KEYS j = false) :
    step rr s1 = ⟨s1, none⟩ ∧
    step rr s2 = ⟨{ s2 with V := updf s2.V (nibX (fetchWord s2)) k, PC := s2.PC + 2 }, none⟩ := by
  constructor
  · have hfp : firstPressed s1.KEYS = none := find?_range_none hnone
    simp only [step, if_pos hpc1, hF1, hkk1]
    norm_num [hfp]
  · have hfp : firstPressed s2.KEYS = some k :=
      find?_range_some hk16 hk (fun j hj => huniq j (by omega) (by omega))
    simp only [step, if_pos hpc2, hF2, hkk2]
    norm_num [hfp, adv]

/-- Claim C7 witness: F10A with no key pressed, and with exactly key 7
pressed. -/
theorem c7_witness :
    (mC7idle.PC + 1 < 4096 ∧ nib3 (fetchWord mC7idle) = 0xF ∧
     lowByte (fetchWord mC7idle) = 0x0A ∧ (∀ j, j < 16 → mC7idle.KEYS j = false) ∧
     mC7key.PC + 1 < 4096 ∧ nib3 (fetchWord mC7key) = 0xF ∧
     lowByte (fetchWord mC7key) = 0x0A ∧ 7 < 16 ∧ mC7key.KEYS 7 = true ∧
     (∀ j, j < 16 → j ≠ 7 → mC7key.KEYS j = false)) ∧
    (step 0 mC7idle = ⟨mC7idle, none⟩ ∧
     step 0 mC7key = ⟨{ mC7key with V := updf mC7key.V (nibX (fetchWord mC7key)) 7, PC := mC7key.PC + 2 }, none⟩) :=
  ⟨⟨by decide, by decide, by decide, by decide, by decide, by decide, by decide,
    by decide, by decide, by decide⟩,
   c7_fx0a_wait_and_advance 0 mC7idle mC7key 7 (by decide) (by decide) (by decide)
     (by decide) (by decide) (by decide) (by decide) (by decide) (by decide)
     (by decide)⟩

/-! Claim C8: the timer tick and the audio edges. -/

theorem tick_pos {s : Machine} (h : 0 < s.ST) :
    decrement_DT_ST s =
      ({ s with DT := if s.DT > 0 then s.DT - 1 else 0, ST := s.ST - 1, bBeepPlaying := true }, !s.bBeepPlaying, false) := by
  simp only [decrement_DT_ST, if_pos h]

theorem tick_nonpos {s : Machine} (h : ¬ 0 < s.ST) :
    decrement_DT_ST s =
      ({ s with DT := if s.DT > 0 then s.DT - 1 else 0, ST := 0, bBeepPlaying := false }, false, s.bBeepPlaying) := by
  simp only [decrement_DT_ST, if_neg h]

theorem tickRun_silent :
    ∀ (m : Nat) (s : Machine), s.bBeepPlaying = false → ¬ 0 < s.ST →
      (tickRun s m).2.1 = 0 ∧ (tickRun s m).2.2 = 0 := by
  intro m
  induction m with
  | zero => exact fun s _ _ => ⟨rfl, rfl⟩
  | succ m ih =>
      intro s hb hst
      simp only [tickRun, tick_nonpos hst, hb]
      have := ih { s with DT := if s.DT > 0 then s.DT - 1 else 0, ST := 0, bBeepPlaying := false }
        rfl (by norm_num)
      simpa using this

theorem tickRun_playing :
    ∀ (m : Nat) (s : Machine), s.bBeepPlaying = true → 0 ≤ s.ST → s.ST < (m : Int) →
      (tickRun s m).2.1 = 0 ∧ (tickRun s m).2.2 = 1 := by
  intro m
  induction m with
  | zero => intro s _ h0 hm; norm_num at hm; omega
  | succ m ih =>
      intro s hb h0 hm
      by_cases hst : 0 < s.ST
      · simp only [tickRun, tick_pos hst, hb]
        have := ih { s with DT := if s.DT > 0 then s.DT - 1 else 0, ST := s.ST - 1, bBeepPlaying := true }
          rfl (by simp; omega) (by simp; push_cast at hm ⊢; omega)
        simpa using this
      · simp only [tickRun, tick_nonpos hst, hb]
        have := tickRun_silent m
          { s with DT := if s.DT > 0 then s.DT - 1 else 0, ST := 0, bBeepPlaying := false }
          rfl (by norm_num)
        simpa using this

/-- Claim C8, confirmed: each decrement_DT_ST call floors DT and ST at 0
(never negative, stepping down by exactly 1 while positive and clamping
to 0 otherwise); beep.play is invoked exactly when ST is positive and the
beep is not already playing (the silent-to-running edge) and beep.stop
exactly when ST has reached 0 with the beep still playing — never
redundantly, since the bBeepPlaying flag tracks the cue; after any tick
that leaves ST positive the cue is playing; and over a whole run of
ticks from a silent state with ST = k > 0, the start and stop primitives
are each invoked exactly once. -/
theorem c8_timer_unit (s : Machine) :
    (0 ≤ (decrement_DT_ST s).1.DT ∧ 0 ≤ (decrement_DT_ST s).1.ST) ∧
    ((0 < s.DT → (decrement_DT_ST s).1.DT = s.DT - 1) ∧
     (s.DT ≤ 0 → (decrement_DT_ST s).1.DT = 0)) ∧
    ((0 < s.ST → (decrement_DT_ST s).1.ST = s.ST - 1) ∧
     (s.ST ≤ 0 → (decrement_DT_ST s).1.ST = 0)) ∧
    ((decrement_DT_ST s).2.1 = true ↔ 0 < s.ST ∧ s.bBeepPlaying = false) ∧
    ((decrement_DT_ST s).2.2 = true ↔ s.ST ≤ 0 ∧ s.bBeepPlaying = true) ∧
    (0 < (decrement_DT_ST s).1.ST → (decrement_DT_ST s).1.bBeepPlaying = true) ∧
    (∀ m : Nat, s.bBeepPlaying = false → 0 < s.ST → s.ST < (m : Int) →
      (tickRun s m).2.1 = 1 ∧ (tickRun s m).2.2 = 1) := by
  have hrun : ∀ m : Nat, s.bBeepPlaying = false → 0 < s.ST → s.ST < (m : Int) →
      (tickRun s m).2.1 = 1 ∧ (tickRun s m).2.2 = 1 := by
    intro m hb hst hm
    cases m with
    | zero => norm_num at hm; omega
    | succ m =>
        simp only [tickRun, tick_pos hst, hb]
        have := tickRun_playing m
          { s with DT := if s.DT > 0 then s.DT - 1 else 0, ST := s.ST - 1, bBeepPlaying := true }
          rfl (by simp; omega) (by simp; push_cast at hm ⊢; omega)
        simp [this.1, this.2]
  by_cases hst : 0 < s.ST
  · refine ⟨⟨?_, ?_⟩, ⟨?_, ?_⟩, ⟨?_, ?_⟩, ?_, ?_, ?_, hrun⟩
    · rw [tick_pos hst]; dsimp only; split <;> omega
    · rw [tick_pos hst]; dsimp only; omega
    · intro h; rw [tick_pos hst]; dsimp only; rw [if_pos h]
    · intro h; rw [tick_pos hst]; dsimp only; rw [if_neg (by omega)]
    · intro _; rw [tick_pos hst]
    · intro h; exact absurd hst (by omega)
    · rw [tick_pos hst]; simp [hst]
    · rw [tick_pos hst]; simp [show ¬ s.ST ≤ 0 by omega]
    · rw [tick_pos hst]; simp
  · refine ⟨⟨?_, ?_⟩, ⟨?_, ?_⟩, ⟨?_, ?_⟩, ?_, ?_, ?_, hrun⟩
    · rw [tick_nonpos hst]; dsimp only; split <;> omega
    · rw [tick_nonpos hst]
    · intro h; rw [tick_nonpos hst]; dsimp only; rw [if_pos h]
    · intro h; rw [tick_nonpos hst]; dsimp only; rw [if_neg (by omega)]
    · intro h; exact absurd h hst
    · intro _; rw [tick_nonpos hst]
    · rw [tick_nonpos hst]; simp [hst]
    · rw [tick_nonpos hst]; simp [show s.ST ≤ 0 by omega]
    · rw [tick_nonpos hst]; simp

/-- Claim C8 witness: from silence with ST = 2, a run of 3 ticks invokes
the start and stop primitives exactly once each. -/
theorem c8_witness :
    (mC8.bBeepPlaying = false ∧ 0 < mC8.ST ∧ mC8.ST < ((3 : Nat) : Int)) ∧
    ((tickRun mC8 3).2.1 = 1 ∧ (tickRun mC8 3).2.2 = 1) :=
  ⟨⟨by decide, by decide, by decide⟩,
   (c8_timer_unit mC8).2.2.2.2.2.2 3 (by decide) (by decide) (by decide)⟩

/-! Claim C5: drawing the same sprite twice. -/

theorem xor_cancel_aux : ∀ a b c : Bool, (a ^^ b) = (b ^^ c) → a = c := by decide

theorem printSprites_delta :
    ∀ (sbl : List Nat) (Vx Vy idx : Nat) (d d' : Display) (r c : Nat),
      (printSprites d sbl Vx Vy idx r c ^^ printSprites d' sbl Vx Vy idx r c) =
        (d r c ^^ d' r c) := by
  intro sbl
  induction sbl with
  | nil => intro _ _ _ _ _ _ _; rfl
  | cons sb rest ih =>
      intro Vx Vy idx d d' r c
      simp only [printSprites]
      rw [ih]
      unfold xorRow
      split
      · cases d r c <;> cases d' r c <;> simp
      · rfl

theorem drwEffect_display_delta (mem : Nat → Nat) (I : Nat) (V : Nat → Nat)
    (x y n : Nat) (d d' : Display) (r c : Nat) :
    ((drwEffect mem I V d x y n).1 r c ^^ (drwEffect mem I V d' x y n).1 r c) =
      (d r c ^^ d' r c) := by
  simp only [drwEffect]
  by_cases h2 : 32 - V y % 32 < n <;> by_cases h3 : 64 - V x % 64 < 8 <;>
    simp only [h2, h3, if_true, if_false, ite_true, ite_false] <;>
    rw [printSprites_delta] <;>
    try rw [printSprites_delta] <;>
    try rw [printSprites_delta]

theorem drwEffect_snd (mem : Nat → Nat) (I : Nat) (V : Nat → Nat)
    (d : Display) (x y n : Nat) :
    (drwEffect mem I V d x y n).2 =
      if anyErased d (drwEffect mem I V d x y n).1 then 1 else 0 := rfl

theorem drwEffect_congrV (mem : Nat → Nat) (I : Nat) {V V' : Nat → Nat}
    (d : Display) (x y n : Nat) (hx : V' x = V x) (hy : V' y = V y) :
    drwEffect mem I V' d x y n = drwEffect mem I V d x y n := by
  simp only [drwEffect, hx, hy]

theorem anyErased_iff (old new : Display) :
    anyErased old new = true ↔
      ∃ r, r < 32 ∧ ∃ c, c < 64 ∧ old r c = true ∧ new r c = false := by
  simp [anyErased, List.any_eq_true, List.mem_range, Bool.and_eq_true,
    Bool.not_eq_true']

/-- Claim C5, amended: executing the same Dxyn draw twice in succession
(same registers apart from the flag byte the first draw itself writes,
same memory, x and y not the flag register) restores the whole display
buffer, visible region included, exactly; and the second draw reports a
collision (VF = 1) exactly when the first draw turned some visible pixel
on, i.e. some visible cell is set after the first draw and was clear
before it.  The claim's unconditional VF = 1 is false: if every pixel the
sprite touches was already set (or the sprite lands only in the padding
area), the second draw erases nothing visible. -/
theorem c5_draw_twice_amended (mem : Nat → Nat) (I : Nat) (V : Nat → Nat)
    (disp : Display) (x y n : Nat) (hx : x ≠ 15) (hy : y ≠ 15) :
    (∀ r c, (drwEffect mem I (updf V 15 (drwEffect mem I V disp x y n).2) (drwEffect mem I V disp x y n).1 x y n).1 r c = disp r c) ∧
    ((drwEffect mem I (updf V 15 (drwEffect mem I V disp x y n).2) (drwEffect mem I V disp x y n).1 x y n).2 = 1 ↔
      ∃ r, r < 32 ∧ ∃ c, c < 64 ∧ (drwEffect mem I V disp x y n).1 r c = true ∧ disp r c = false) := by
  have hVx : updf V 15 (drwEffect mem I V disp x y n).2 x = V x := by
    unfold updf; rw [if_neg hx]
  have hVy : updf V 15 (drwEffect mem I V disp x y n).2 y = V y := by
    unfold updf; rw [if_neg hy]
  have hcong :
      drwEffect mem I (updf V 15 (drwEffect mem I V disp x y n).2) (drwEffect mem I V disp x y n).1 x y n =
        drwEffect mem I V (drwEffect mem I V disp x y n).1 x y n :=
    drwEffect_congrV mem I (drwEffect mem I V disp x y n).1 x y n hVx hVy
  have hid : ∀ r c,
      (drwEffect mem I (updf V 15 (drwEffect mem I V disp x y n).2) (drwEffect mem I V disp x y n).1 x y n).1 r c = disp r c := by
    intro r c
    rw [hcong]
    exact xor_cancel_aux _ _ _
      (drwEffect_display_delta mem I V x y n (drwEffect mem I V disp x y n).1 disp r c)
  have hfun :
      (drwEffect mem I (updf V 15 (drwEffect mem I V disp x y n).2) (drwEffect mem I V disp x y n).1 x y n).1 = disp :=
    funext fun r => funext fun c => hid r c
  refine ⟨hid, ?_⟩
  rw [drwEffect_snd, hfun]
  by_cases hA : anyErased (drwEffect mem I V disp x y n).1 disp = true
  · rw [if_pos hA]
    exact iff_of_true rfl ((anyErased_iff _ _).mp hA)
  · rw [if_neg hA]
    exact iff_of_false (by norm_num) (fun h => hA ((anyErased_iff _ _).mpr h))

/-- Claim C5 witness: one-byte sprite 80 drawn at the origin over a
display whose pixel (0,0) is set. -/
theorem c5_witness :
    ((0 : Nat) ≠ 15 ∧ (1 : Nat) ≠ 15) ∧
    ((∀ r c, (drwEffect memC5 0 (updf (fun _ => 0) 15 (drwEffect memC5 0 (fun _ => 0) dispC5 0 1 1).2) (drwEffect memC5 0 (fun _ => 0) dispC5 0 1 1).1 0 1 1).1 r c = dispC5 r c) ∧
     ((drwEffect memC5 0 (updf (fun _ => 0) 15 (drwEffect memC5 0 (fun _ => 0) dispC5 0 1 1).2) (drwEffect memC5 0 (fun _ => 0) dispC5 0 1 1).1 0 1 1).2 = 1 ↔
       ∃ r, r < 32 ∧ ∃ c, c < 64 ∧ (drwEffect memC5 0 (fun _ => 0) dispC5 0 1 1).1 r c = true ∧ dispC5 r c = false)) :=
  ⟨⟨by decide, by decide⟩,
   c5_draw_twice_amended memC5 0 (fun _ => 0) dispC5 0 1 1 (by decide) (by decide)⟩

/-- Claim C5 counterexample: same configuration — pixel (0,0) already set,
sprite byte 80 with a set bit, n = 1 — yet the second draw yields VF = 0,
refuting the claim that the second draw always sets VF to 1 (the first
draw ERASED the pixel, so the second draw re-sets it and erases nothing). -/
theorem c5_counterexample :
    (drwEffect memC5 0 (fun _ => 0) dispC5 0 1 1).2 = 1 ∧
    (drwEffect memC5 0 (updf (fun _ => 0) 15 (drwEffect memC5 0 (fun _ => 0) dispC5 0 1 1).2) (drwEffect memC5 0 (fun _ => 0) dispC5 0 1 1).1 0 1 1).2 = 0 := by
  refine ⟨by decide, by decide⟩

/-! Claim C2: the vertical wrap slice. -/

/-- Claim C2: at Vy = 31 with a 3-byte sprite 80 40 20 the overflowing
rows are the LAST TWO bytes (40 at row 0, 20 at row 1 after a correct
wrap), but the code slices sprite_byte_list[mm:] with mm = n - (32 - 31)
= 2, so it re-draws only byte 20 and puts it at row 0: the set bit of 20
(column 2) lands at row 0 instead of row 1, nothing lands where 40's bit
(row 0, column 1) should be, and row 1 stays clear.  The first conjunct
checks the untouched main pass (byte 80 at row 31). -/
theorem c2_vertical_wrap_divergence :
    (drwEffect memC2 0 VC2 clearDisplay 0 1 3).1 31 0 = true ∧
    (drwEffect memC2 0 VC2 clearDisplay 0 1 3).1 0 2 = true ∧
    (drwEffect memC2 0 VC2 clearDisplay 0 1 3).1 0 1 = false ∧
    (drwEffect memC2 0 VC2 clearDisplay 0 1 3).1 1 2 = false := by
  refine ⟨by decide, by decide, by decide, by decide⟩

/-! Claim C6: the horizontal wrap shift. -/

theorem spriteBit_testBit (sb j : Nat) : spriteBit sb j = Nat.testBit sb (7 - j) := by
  unfold spriteBit
  rw [Nat.testBit_to_div_mod, Nat.shiftRight_eq_div_pow]
  by_cases h : sb / 2 ^ (7 - j) % 2 = 1
  · simp [h]
  · simp [h]

theorem wrapBit_eq (sb ii j : Nat) (_hii : ii < 8) (hj : j + ii < 8) :
    spriteBit ((sb <<< ii) &&& 0xFF) j = spriteBit sb (j + ii) := by
  rw [spriteBit_testBit, spriteBit_testBit,
    show (0xFF : Nat) = 2 ^ 8 - 1 by norm_num,
    Nat.testBit_and, Nat.testBit_two_pow_sub_one, Nat.testBit_shiftLeft]
  have h1 : 7 - j ≥ ii := by omega
  have h2 : 7 - j < 8 := by omega
  have h3 : 7 - j - ii = 7 - (j + ii) := by omega
  simp [h1, h2, h3]

theorem wrapBit_out (sb ii j : Nat) (hj8 : j < 8) (hj : 8 ≤ j + ii) :
    spriteBit ((sb <<< ii) &&& 0xFF) j = false := by
  rw [spriteBit_testBit,
    show (0xFF : Nat) = 2 ^ 8 - 1 by norm_num,
    Nat.testBit_and, Nat.testBit_two_pow_sub_one, Nat.testBit_shiftLeft]
  simp [show ¬ (7 - j ≥ ii) by omega]

/-- Claim C6, amended: the horizontal wrap pass shifts the original
sprite bytes left by the DISTANCE from the draw column to the visible
right edge (64 - Vx mod 64), not by the overflow amount: the source draw
equals the claim-shaped draw with that corrected shift (first conjunct);
with that shift, every visible wrapped column j receives exactly the
sprite bit that fell off-screen at column 64 + j, and the bits shifted
out vanish (second and third conjuncts); and the claim's own concrete
instance — Vx = 60, Vy = 0, n = 8, all-FF bytes on a clear display —
lights exactly columns 60..63 and 0..3 of rows 0..7 (fourth conjunct). -/
theorem c6_horizontal_wrap_amended :
    (∀ (mem : Nat → Nat) (I : Nat) (V : Nat → Nat) (disp : Display) (x y n : Nat),
       drwEffect mem I V disp x y n = drwAmendedC6 mem I V disp x y n) ∧
    (∀ Vx sb j, 64 - Vx % 64 < 8 → j + (64 - Vx % 64) < 8 →
       spriteBit ((sb <<< (64 - Vx % 64)) &&& 0xFF) j =
         spriteBit sb (j + (64 - Vx % 64))) ∧
    (∀ Vx sb j, j < 8 → 8 ≤ j + (64 - Vx % 64) →
       spriteBit ((sb <<< (64 - Vx % 64)) &&& 0xFF) j = false) ∧
    (∀ r, r < 32 → ∀ c, c < 64 →
       ((drwEffect memC6w 0 VC6w clearDisplay 0 1 8).1 r c = true ↔
         (r < 8 ∧ (c < 4 ∨ 60 ≤ c)))) := by
  refine ⟨fun _ _ _ _ _ _ _ => rfl,
          fun Vx sb j h1 h2 => wrapBit_eq sb (64 - Vx % 64) j h1 h2,
          fun Vx sb j h1 h2 => wrapBit_out sb (64 - Vx % 64) j h1 h2,
          by decide⟩

/-- Claim C6 witness: at Vx = 57 (distance 7 to the edge) the wrapped
byte of sprite 01 puts the off-screen bit at column 0. -/
theorem c6_witness :
    (64 - 57 % 64 < 8 ∧ 0 + (64 - 57 % 64) < 8) ∧
    spriteBit ((0x01 <<< (64 - 57 % 64)) &&& 0xFF) 0 =
      spriteBit 0x01 (0 + (64 - 57 % 64)) :=
  ⟨⟨by decide, by decide⟩,
   c6_horizontal_wrap_amended.2.1 57 0x01 0 (by decide) (by decide)⟩

/-- Claim C6 counterexample: Vx = 57, one sprite byte 01.  The overflow
amount is 1 column, and shifting by it (drwSpecC6, the claim as written)
leaves visible column 0 clear, while the code (shift by the distance
64 - 57 = 7) sets column 0 — the two disagree, so the claim's shift
amount is wrong. -/
theorem c6_counterexample :
    (drwEffect memC6 0 VC6 clearDisplay 0 1 1).1 0 0 = true ∧
    (drwSpecC6 memC6 0 VC6 clearDisplay 0 1 1).1 0 0 = false := by
  refine ⟨by decide, by decide⟩
